import Mathlib

/-
Verification of the JNI convenience wrapper (`include/JniHelper.hpp`).

The header is shallowly embedded as Lean functions over an explicit
environment/state type.  The foreign runtime (the JVM seen through a
`JNIEnv*`) is modelled as:

  * a `World`, the static behaviour of the runtime (class / method / field
    resolution oracles, the behaviour of method invocations, field values,
    and whether string allocation succeeds), and
  * an `Env`, the mutable per-thread state: the pending-exception slot,
    the pool of strings materialised by `NewStringUTF`, and ghost logs
    recording the foreign primitives the wrapper invoked, the local
    references it deleted, the string buffers it released, and how many
    `jvalue` argument arrays it built.

C++ exceptions are modelled by `Except JNIException`; a wrapper operation
has type `Env → Except JNIException α × Env` (the environment survives an
exception, exactly as the `JNIEnv` does when a C++ exception unwinds).
Handles (`jclass`, `jobject`, `jmethodID`, `jfieldID`, throwables) are
`Nat`; nullable handles are `Option Nat`.
-/

set_option autoImplicit false

/-- Pending Java throwables, classified by how the runtime created them:
lookup failures (`NoClassDefFoundError`, `NoSuchMethodError`,
`NoSuchFieldError`), allocation failure (`OutOfMemoryError`), and faults
raised by the body of an invoked Java method (`appThrown`). -/
inductive Throwable where
  | noClassDefFound (className : String)
  | noSuchMethodError (name sig : String)
  | noSuchFieldError (name sig : String)
  | outOfMemoryError
  | appThrown (handle : Nat)
  deriving Repr, DecidableEq

/-- The spec's two-kind error taxonomy. -/
inductive ErrKind where
  | lookupFailed
  | foreignFault
  deriving Repr, DecidableEq

/-- Which taxonomy kind a pending throwable belongs to: resolution errors
are `lookupFailed`, everything a foreign call leaves pending is
`foreignFault`. -/
def Throwable.kind : Throwable → ErrKind
  | .noClassDefFound _ => .lookupFailed
  | .noSuchMethodError _ _ => .lookupFailed
  | .noSuchFieldError _ _ => .lookupFailed
  | .outOfMemoryError => .foreignFault
  | .appThrown _ => .foreignFault

/-- One cell of the `jvalue` union.  Field letters mirror the union
members (`z, b, c, s, i, j, f, d, l`).  Float and double payloads are the
raw bit patterns: the wrapper only copies them.  `uninit` is a cell that
was never written (the placeholder cell of a zero-argument array, or the
unspecified result of a call that faulted). -/
inductive JValue where
  | z (v : Bool)
  | b (v : Int)
  | c (v : Nat)
  | s (v : Int)
  | i (v : Int)
  | j (v : Int)
  | f (bits : Nat)
  | d (bits : Nat)
  | l (ref : Option Nat)
  | uninit
  deriving Repr, DecidableEq

/-- The return types `RetType` supported by `CallMethod` /
`CallStaticMethod`: the eleven types with a `JNITypeTraits`
specialization. -/
inductive RType where
  | obj | str | voidT | boolT | byteT | charT | shortT | intT | longT | floatT | doubleT
  deriving Repr, DecidableEq

/-- The type parameter `T` of `GetField<T>` / `GetStaticField<T>`:
the enumerated field-capable types, plus `otherRefT`, a reference type
convertible to `jobject` for which no `JNITypeTraits` specialization
exists (e.g. `jthrowable`). -/
inductive FType where
  | objT | strT | boolT | byteT | charT | shortT | intT | longT | floatT | doubleT
  | otherRefT
  deriving Repr, DecidableEq

/-- Ghost log entries: which foreign call primitive the wrapper invoked.
`callDirect rt` is the direct variadic-free primitive chosen for return
type `rt` (`CallIntMethod`, ... — the object branch for `obj`/`str`);
`callArray rt` is the `A`-suffixed array-based primitive
(`CallIntMethodA`, ...). -/
inductive PrimCall where
  | callDirect (rt : RType) (obj mid : Nat)
  | callArray (rt : RType) (obj mid : Nat) (args : List JValue)
  | callStaticDirect (rt : RType) (cls mid : Nat)
  | callStaticArray (rt : RType) (cls mid : Nat) (args : List JValue)
  | newObj (cls mid : Nat) (args : List JValue)
  | getFieldPrim (rt : RType) (obj fid : Nat)
  | getStaticFieldPrim (rt : RType) (cls fid : Nat)
  | newString (chars : String)
  deriving Repr, DecidableEq

/-- Outcome of invoking a Java method: a normal result or a thrown
foreign-side fault (a throwable handle). -/
inductive CallOutcome where
  | ret (v : JValue)
  | throws (t : Nat)
  deriving Repr, DecidableEq

/-- Outcome of `NewObjectA`. -/
inductive NewObjectOutcome where
  | made (obj : Nat)
  | throws (t : Nat)
  deriving Repr, DecidableEq

/-- The static behaviour of the foreign runtime.  `arity mid` is the
number of declared parameters of method `mid`; an invocation reads
exactly that many cells of the argument array. -/
structure World where
  findClass : String → Option Nat
  getObjectClass : Nat → Nat
  methodID : Nat → String → String → Option Nat
  staticMethodID : Nat → String → String → Option Nat
  fieldID : Nat → String → String → Option Nat
  staticFieldID : Nat → String → String → Option Nat
  arity : Nat → Nat
  invokeVirtual : Nat → Nat → List JValue → CallOutcome
  invokeStatic : Nat → Nat → List JValue → CallOutcome
  newObjA : Nat → Nat → List JValue → NewObjectOutcome
  readField : Nat → Nat → JValue
  readStaticField : Nat → Nat → JValue
  stringAllocFails : Bool

/-- The mutable per-thread state of the runtime plus ghost observation
logs.  `strings` is the pool of strings materialised by `NewStringUTF`
(and any strings pre-existing in the runtime); a `jstring` handle `h` is
valid iff `strings.get? h` is `some`. -/
structure Env where
  world : World
  pending : Option Throwable
  strings : List String
  deleted : List Nat
  releasedChars : List Nat
  calls : List PrimCall
  arraysBuilt : Nat

/-- `jni::JNIException`: a message plus the captured Java throwable
(`nullptr` default modelled as `none`). -/
structure JNIException where
  message : String
  javaThrowable : Option Throwable
  deriving Repr, DecidableEq

/-- Taxonomy kind of a raised `JNIException`, read off the carried
throwable; `none` when no throwable is attached. -/
def JNIException.kind : JNIException → Option ErrKind
  | ⟨_, none⟩ => none
  | ⟨_, some t⟩ => some t.kind

/-- `env->ExceptionCheck()`. -/
def exceptionCheck (e : Env) : Bool := e.pending.isSome

/-- `env->ExceptionOccurred()`: returns the pending throwable without
clearing it. -/
def exceptionOccurred (e : Env) : Option Throwable := e.pending

/-- `env->ExceptionClear()`. -/
def exceptionClear (e : Env) : Env := { e with pending := none }

/-- `env->DeleteLocalRef(r)`: recorded in the deletion log. -/
def deleteLocalRef (e : Env) (r : Nat) : Env :=
  { e with deleted := e.deleted ++ [r] }

/-- The `JNI_CHECK_EXCEPTION(env)` macro: if a fault is pending, retrieve
it (`ExceptionOccurred`), emit a diagnostic dump (`ExceptionDescribe`, no
state effect in the model), clear the pending flag (`ExceptionClear`) and
throw `jni::JNIException("JNI exception occurred", exception)`; otherwise
do nothing. -/
def jniCheckException (e : Env) : Except JNIException Unit × Env :=
  if exceptionCheck e then
    let exception := exceptionOccurred e
    let e1 := exceptionClear e
    (Except.error ⟨"JNI exception occurred", exception⟩, e1)
  else
    (Except.ok (), e)

/-- `jni::ScopedLocalRef<T>`: the held (nullable) reference.  The stored
`JNIEnv*` is the explicitly-passed `Env` of `destruct`. -/
structure ScopedLocalRef where
  ref : Option Nat
  deriving Repr, DecidableEq

/-- `ScopedLocalRef::get()`. -/
def ScopedLocalRef.get (g : ScopedLocalRef) : Option Nat := g.ref

/-- `ScopedLocalRef::release()`: returns the held reference and the guard
with its internal reference nulled. -/
def ScopedLocalRef.release (g : ScopedLocalRef) : Option Nat × ScopedLocalRef :=
  (g.ref, ⟨none⟩)

/-- `ScopedLocalRef::~ScopedLocalRef()`: `if (ref_) env_->DeleteLocalRef(ref_)`. -/
def ScopedLocalRef.destruct (g : ScopedLocalRef) (e : Env) : Env :=
  match g.ref with
  | some r => deleteLocalRef e r
  | none => e

/-- The effect of a C string (`const char*`): the characters before the
first embedded null byte.  `std::string::c_str()` hands the runtime this
prefix, and `std::string(const char*)` copies exactly this prefix. -/
def cString (s : String) : String :=
  String.mk (s.toList.takeWhile (fun ch => ch ≠ Char.ofNat 0))

/-- Whether a string contains no embedded null. -/
def noNullChars (s : String) : Bool :=
  s.toList.all (fun ch => ch ≠ Char.ofNat 0)

/-- `env->NewStringUTF(chars)`: on success appends the characters to the
string pool and returns the fresh handle; when the runtime cannot
allocate it returns null and leaves an `OutOfMemoryError` pending.
Either way the foreign call is recorded in the ghost log. -/
def newStringUTF (e : Env) (chars : String) : Option Nat × Env :=
  if e.world.stringAllocFails then
    (none, { e with pending := some .outOfMemoryError,
                    calls := e.calls ++ [.newString chars] })
  else
    (some e.strings.length,
     { e with strings := e.strings ++ [chars],
              calls := e.calls ++ [.newString chars] })

/-- `env->GetStringUTFChars(h, nullptr)`: exposes the character data of a
valid handle, `none` (a null `const char*`) otherwise. -/
def getStringUTFChars (e : Env) (h : Nat) : Option String := e.strings.get? h

/-- `env->ReleaseStringUTFChars(h, chars)`: recorded in the buffer-release
log. -/
def releaseStringUTFChars (e : Env) (h : Nat) : Env :=
  { e with releasedChars := e.releasedChars ++ [h] }

/-- `jni::JStringToString`: empty on a null handle; empty when the runtime
does not expose the character data; otherwise copies the characters into
a `std::string` and immediately releases the character buffer. -/
def JStringToString (e : Env) (jstr : Option Nat) : String × Env :=
  match jstr with
  | none => ("", e)
  | some h =>
    match getStringUTFChars e h with
    | none => ("", e)
    | some chars =>
      let result := cString chars
      (result, releaseStringUTFChars e h)

/-- `jni::StringToJString`: `env->NewStringUTF(str.c_str())`.  Note: no
exception check follows the foreign call. -/
def StringToJString (e : Env) (str : String) : Option Nat × Env :=
  newStringUTF e (cString str)

/-- `env->FindClass(name)`: the class handle, or null with a
`NoClassDefFoundError` left pending. -/
def envFindClass (e : Env) (className : String) : Nat × Env :=
  match e.world.findClass className with
  | some cls => (cls, e)
  | none => (0, { e with pending := some (.noClassDefFound className) })

/-- `env->GetMethodID(cls, name, sig)`: the method id, or null with a
`NoSuchMethodError` left pending. -/
def envGetMethodID (e : Env) (cls : Nat) (name sig : String) : Nat × Env :=
  match e.world.methodID cls name sig with
  | some mid => (mid, e)
  | none => (0, { e with pending := some (.noSuchMethodError name sig) })

/-- `env->GetStaticMethodID(cls, name, sig)`. -/
def envGetStaticMethodID (e : Env) (cls : Nat) (name sig : String) : Nat × Env :=
  match e.world.staticMethodID cls name sig with
  | some mid => (mid, e)
  | none => (0, { e with pending := some (.noSuchMethodError name sig) })

/-- `env->GetFieldID(cls, name, sig)`: the field id, or null with a
`NoSuchFieldError` left pending. -/
def envGetFieldID (e : Env) (cls : Nat) (name sig : String) : Nat × Env :=
  match e.world.fieldID cls name sig with
  | some fid => (fid, e)
  | none => (0, { e with pending := some (.noSuchFieldError name sig) })

/-- `env->GetStaticFieldID(cls, name, sig)`. -/
def envGetStaticFieldID (e : Env) (cls : Nat) (name sig : String) : Nat × Env :=
  match e.world.staticFieldID cls name sig with
  | some fid => (fid, e)
  | none => (0, { e with pending := some (.noSuchFieldError name sig) })

/-- `jni::FindClass`: `env->FindClass` followed by `JNI_CHECK_EXCEPTION`. -/
def FindClass (e : Env) (className : String) : Except JNIException Nat × Env :=
  let (cls, e1) := envFindClass e className
  match jniCheckException e1 with
  | (.ok _, e2) => (.ok cls, e2)
  | (.error ex, e2) => (.error ex, e2)

/-- `jni::GetMethodID`: `env->GetMethodID` followed by `JNI_CHECK_EXCEPTION`. -/
def GetMethodID (e : Env) (cls : Nat) (methodName signature : String) :
    Except JNIException Nat × Env :=
  let (mid, e1) := envGetMethodID e cls methodName signature
  match jniCheckException e1 with
  | (.ok _, e2) => (.ok mid, e2)
  | (.error ex, e2) => (.error ex, e2)

/-- `jni::GetStaticMethodID`. -/
def GetStaticMethodID (e : Env) (cls : Nat) (methodName signature : String) :
    Except JNIException Nat × Env :=
  let (mid, e1) := envGetStaticMethodID e cls methodName signature
  match jniCheckException e1 with
  | (.ok _, e2) => (.ok mid, e2)
  | (.error ex, e2) => (.error ex, e2)

/-- `jni::GetFieldID`. -/
def GetFieldID (e : Env) (cls : Nat) (fieldName signature : String) :
    Except JNIException Nat × Env :=
  let (fid, e1) := envGetFieldID e cls fieldName signature
  match jniCheckException e1 with
  | (.ok _, e2) => (.ok fid, e2)
  | (.error ex, e2) => (.error ex, e2)

/-- `jni::GetStaticFieldID`. -/
def GetStaticFieldID (e : Env) (cls : Nat) (fieldName signature : String) :
    Except JNIException Nat × Env :=
  let (fid, e1) := envGetStaticFieldID e cls fieldName signature
  match jniCheckException e1 with
  | (.ok _, e2) => (.ok fid, e2)
  | (.error ex, e2) => (.error ex, e2)

/-- The direct (non-array) call primitive selected by the zero-argument
`if constexpr` chain of `jni::CallMethod`: `CallVoidMethod`,
`CallBooleanMethod`, ..., `CallDoubleMethod`, or `CallObjectMethod` for
`jstring` / `jobject`-convertible return types.  All of them invoke the
same Java method; the log records which primitive ran.  On a foreign-side
fault the unspecified C result is `uninit` and the fault is left
pending. -/
def envCallMethodDirect (e : Env) (rt : RType) (obj mid : Nat) : JValue × Env :=
  let e1 := { e with calls := e.calls ++ [.callDirect rt obj mid] }
  match e.world.invokeVirtual obj mid [] with
  | .ret v => (v, e1)
  | .throws t => (.uninit, { e1 with pending := some (.appThrown t) })

/-- The array-based call primitive (`Call<Type>MethodA`) wrapped by the
`JNITypeTraits` specializations: the invoked method reads its declared
number of parameters from the argument array. -/
def envCallMethodA (e : Env) (rt : RType) (obj mid : Nat) (args : List JValue) :
    JValue × Env :=
  let e1 := { e with calls := e.calls ++ [.callArray rt obj mid args] }
  match e.world.invokeVirtual obj mid (args.take (e.world.arity mid)) with
  | .ret v => (v, e1)
  | .throws t => (.uninit, { e1 with pending := some (.appThrown t) })

/-- Direct static call primitive (`CallStatic<Type>Method`). -/
def envCallStaticDirect (e : Env) (rt : RType) (cls mid : Nat) : JValue × Env :=
  let e1 := { e with calls := e.calls ++ [.callStaticDirect rt cls mid] }
  match e.world.invokeStatic cls mid [] with
  | .ret v => (v, e1)
  | .throws t => (.uninit, { e1 with pending := some (.appThrown t) })

/-- Array-based static call primitive (`CallStatic<Type>MethodA`). -/
def envCallStaticA (e : Env) (rt : RType) (cls mid : Nat) (args : List JValue) :
    JValue × Env :=
  let e1 := { e with calls := e.calls ++ [.callStaticArray rt cls mid args] }
  match e.world.invokeStatic cls mid (args.take (e.world.arity mid)) with
  | .ret v => (v, e1)
  | .throws t => (.uninit, { e1 with pending := some (.appThrown t) })

/-- `env->NewObjectA(cls, ctor, args)`. -/
def envNewObjectA (e : Env) (cls ctor : Nat) (args : List JValue) :
    Option Nat × Env :=
  let e1 := { e with calls := e.calls ++ [.newObj cls ctor args] }
  match e.world.newObjA cls ctor (args.take (e.world.arity ctor)) with
  | .made obj => (some obj, e1)
  | .throws t => (none, { e1 with pending := some (.appThrown t) })

/-- `env->Get<Type>Field(obj, fid)` / `env->GetObjectField(obj, fid)`:
reading a field does not fault; the log records which typed read
primitive ran. -/
def envGetFieldPrim (e : Env) (rt : RType) (obj fid : Nat) : JValue × Env :=
  (e.world.readField obj fid, { e with calls := e.calls ++ [.getFieldPrim rt obj fid] })

/-- `env->GetStatic<Type>Field(cls, fid)`. -/
def envGetStaticFieldPrim (e : Env) (rt : RType) (cls fid : Nat) : JValue × Env :=
  (e.world.readStaticField cls fid,
   { e with calls := e.calls ++ [.getStaticFieldPrim rt cls fid] })

/-- `JNITypeTraits<RetType>::CallMethod`: the array-based call primitive
immediately followed by `JNI_CHECK_EXCEPTION`. -/
def traitsCallMethod (rt : RType) (e : Env) (obj mid : Nat) (args : List JValue) :
    Except JNIException JValue × Env :=
  let (result, e1) := envCallMethodA e rt obj mid args
  match jniCheckException e1 with
  | (.ok _, e2) => (.ok result, e2)
  | (.error ex, e2) => (.error ex, e2)

/-- `JNITypeTraits<RetType>::CallStaticMethod`. -/
def traitsCallStaticMethod (rt : RType) (e : Env) (cls mid : Nat) (args : List JValue) :
    Except JNIException JValue × Env :=
  let (result, e1) := envCallStaticA e rt cls mid args
  match jniCheckException e1 with
  | (.ok _, e2) => (.ok result, e2)
  | (.error ex, e2) => (.error ex, e2)

/-- `JNITypeTraits<T>::GetField`: the typed field-read primitive
immediately followed by `JNI_CHECK_EXCEPTION`. -/
def traitsGetField (rt : RType) (e : Env) (obj fid : Nat) :
    Except JNIException JValue × Env :=
  let (result, e1) := envGetFieldPrim e rt obj fid
  match jniCheckException e1 with
  | (.ok _, e2) => (.ok result, e2)
  | (.error ex, e2) => (.error ex, e2)

/-- `JNITypeTraits<T>::GetStaticField`. -/
def traitsGetStaticField (rt : RType) (e : Env) (cls fid : Nat) :
    Except JNIException JValue × Env :=
  let (result, e1) := envGetStaticFieldPrim e rt cls fid
  match jniCheckException e1 with
  | (.ok _, e2) => (.ok result, e2)
  | (.error ex, e2) => (.error ex, e2)

/-- One argument of a variadic wrapper call, one constructor per
`setJValue` overload: the eight primitive value overloads, the explicit
`nullptr_t` overload, the `jobject` / jobject-convertible overloads
(a nullable handle), the `const std::string&` overload, and the
`const char*` overload (`none` models a null pointer). -/
inductive Arg where
  | zArg (v : Bool)
  | bArg (v : Int)
  | cArg (v : Nat)
  | sArg (v : Int)
  | iArg (v : Int)
  | jArg (v : Int)
  | fArg (bits : Nat)
  | dArg (bits : Nat)
  | nullArg
  | objArg (ref : Option Nat)
  | strArg (s : String)
  | cstrArg (s : Option String)
  deriving Repr, DecidableEq

/-- `ArgsToJValues::setJValue`: converts one argument into its `jvalue`
cell.  Primitive values are copied into the matching union slot;
`nullptr` and null `const char*` become null references with no foreign
call; references are stored as-is; `std::string` goes through
`StringToJString` and `const char*` through `NewStringUTF` (neither is
followed by an exception check). -/
def setJValue (e : Env) (a : Arg) : JValue × Env :=
  match a with
  | .zArg v => (.z v, e)
  | .bArg v => (.b v, e)
  | .cArg v => (.c v, e)
  | .sArg v => (.s v, e)
  | .iArg v => (.i v, e)
  | .jArg v => (.j v, e)
  | .fArg v => (.f v, e)
  | .dArg v => (.d v, e)
  | .nullArg => (.l none, e)
  | .objArg r => (.l r, e)
  | .strArg s =>
    let (jstr, e1) := StringToJString e s
    (.l jstr, e1)
  | .cstrArg none => (.l none, e)
  | .cstrArg (some chars) =>
    let (jstr, e1) := newStringUTF e chars
    (.l jstr, e1)

/-- `ArgsToJValues::convertArgs`: converts the arguments left to right,
writing cell `i` from argument `i`. -/
def convertArgs (e : Env) (args : List Arg) : List JValue × Env :=
  match args with
  | [] => ([], e)
  | a :: rest =>
    let (v, e1) := setJValue e a
    let (vs, e2) := convertArgs e1 rest
    (v :: vs, e2)

/-- `ArgsToJValues::ArgsToJValues`: the member array
`jvalue values_[sizeof...(Args) > 0 ? sizeof...(Args) : 1]` — for zero
arguments the single cell stays unwritten.  The ghost counter records
that an argument array was built. -/
def ArgsToJValues (e : Env) (args : List Arg) : List JValue × Env :=
  let (cells, e1) := convertArgs e args
  let values := if args.length = 0 then [JValue.uninit] else cells
  (values, { e1 with arraysBuilt := e1.arraysBuilt + 1 })

/-- The strings for which argument packing performs a foreign
string-creation call, in order: `std::string` arguments (truncated at an
embedded null by `c_str()`) and non-null `const char*` arguments. -/
def promotedStrings (args : List Arg) : List String :=
  match args with
  | [] => []
  | .strArg s :: rest => cString s :: promotedStrings rest
  | .cstrArg (some chars) :: rest => chars :: promotedStrings rest
  | _ :: rest => promotedStrings rest

/-- `jni::CallMethod<RetType>(env, obj, methodName, signature, args...)`:
resolve the class of `obj` (guarded by a `ScopedLocalRef`), resolve the
method id, then either the direct zero-argument primitive or
`ArgsToJValues` plus the `JNITypeTraits` array-based slot; the guard
deletes the class reference on every exit path, including unwinding. -/
def CallMethod (rt : RType) (e : Env) (obj : Nat) (methodName signature : String)
    (args : List Arg) : Except JNIException JValue × Env :=
  let cls := e.world.getObjectClass obj
  match GetMethodID e cls methodName signature with
  | (.error ex, e1) => (.error ex, ScopedLocalRef.destruct ⟨some cls⟩ e1)
  | (.ok mid, e1) =>
    if args.length = 0 then
      let (result, e2) := envCallMethodDirect e1 rt obj mid
      match jniCheckException e2 with
      | (.error ex, e3) => (.error ex, ScopedLocalRef.destruct ⟨some cls⟩ e3)
      | (.ok _, e3) => (.ok result, ScopedLocalRef.destruct ⟨some cls⟩ e3)
    else
      let (values, e2) := ArgsToJValues e1 args
      match traitsCallMethod rt e2 obj mid values with
      | (.error ex, e3) => (.error ex, ScopedLocalRef.destruct ⟨some cls⟩ e3)
      | (.ok v, e3) => (.ok v, ScopedLocalRef.destruct ⟨some cls⟩ e3)

/-- `jni::CallStaticMethod<RetType>(env, className, methodName, signature,
args...)`. -/
def CallStaticMethod (rt : RType) (e : Env) (className methodName signature : String)
    (args : List Arg) : Except JNIException JValue × Env :=
  match FindClass e className with
  | (.error ex, e1) => (.error ex, e1)
  | (.ok cls, e1) =>
    match GetStaticMethodID e1 cls methodName signature with
    | (.error ex, e2) => (.error ex, ScopedLocalRef.destruct ⟨some cls⟩ e2)
    | (.ok mid, e2) =>
      if args.length = 0 then
        let (result, e3) := envCallStaticDirect e2 rt cls mid
        match jniCheckException e3 with
        | (.error ex, e4) => (.error ex, ScopedLocalRef.destruct ⟨some cls⟩ e4)
        | (.ok _, e4) => (.ok result, ScopedLocalRef.destruct ⟨some cls⟩ e4)
      else
        let (values, e3) := ArgsToJValues e2 args
        match traitsCallStaticMethod rt e3 cls mid values with
        | (.error ex, e4) => (.error ex, ScopedLocalRef.destruct ⟨some cls⟩ e4)
        | (.ok v, e4) => (.ok v, ScopedLocalRef.destruct ⟨some cls⟩ e4)

/-- The unoptimized variant of `jni::CallMethod` written from the spec's
words (§4.7 step 4): always build the Argument Cell Array and dispatch
through the Typed Dispatch Table entry for the return type, with no
zero-argument special case.  Used to state that the zero-argument
optimization path refines it. -/
def CallMethodViaTable (rt : RType) (e : Env) (obj : Nat)
    (methodName signature : String) (args : List Arg) :
    Except JNIException JValue × Env :=
  let cls := e.world.getObjectClass obj
  match GetMethodID e cls methodName signature with
  | (.error ex, e1) => (.error ex, ScopedLocalRef.destruct ⟨some cls⟩ e1)
  | (.ok mid, e1) =>
    let (values, e2) := ArgsToJValues e1 args
    match traitsCallMethod rt e2 obj mid values with
    | (.error ex, e3) => (.error ex, ScopedLocalRef.destruct ⟨some cls⟩ e3)
    | (.ok v, e3) => (.ok v, ScopedLocalRef.destruct ⟨some cls⟩ e3)

/-- The unoptimized variant of `jni::CallStaticMethod` (spec §4.7 step 4). -/
def CallStaticMethodViaTable (rt : RType) (e : Env)
    (className methodName signature : String) (args : List Arg) :
    Except JNIException JValue × Env :=
  match FindClass e className with
  | (.error ex, e1) => (.error ex, e1)
  | (.ok cls, e1) =>
    match GetStaticMethodID e1 cls methodName signature with
    | (.error ex, e2) => (.error ex, ScopedLocalRef.destruct ⟨some cls⟩ e2)
    | (.ok mid, e2) =>
      let (values, e3) := ArgsToJValues e2 args
      match traitsCallStaticMethod rt e3 cls mid values with
      | (.error ex, e4) => (.error ex, ScopedLocalRef.destruct ⟨some cls⟩ e4)
      | (.ok v, e4) => (.ok v, ScopedLocalRef.destruct ⟨some cls⟩ e4)

/-- `jni::NewObject(env, className, constructorSignature, args...)`. -/
def NewObject (e : Env) (className constructorSignature : String) (args : List Arg) :
    Except JNIException (Option Nat) × Env :=
  match FindClass e className with
  | (.error ex, e1) => (.error ex, e1)
  | (.ok cls, e1) =>
    match GetMethodID e1 cls "<init>" constructorSignature with
    | (.error ex, e2) => (.error ex, ScopedLocalRef.destruct ⟨some cls⟩ e2)
    | (.ok ctor, e2) =>
      let (values, e3) := ArgsToJValues e2 args
      let (obj, e4) := envNewObjectA e3 cls ctor values
      match jniCheckException e4 with
      | (.error ex, e5) => (.error ex, ScopedLocalRef.destruct ⟨some cls⟩ e5)
      | (.ok _, e5) => (.ok obj, ScopedLocalRef.destruct ⟨some cls⟩ e5)

/-- `JNITypeTraits<T>::signature` for a field type parameter `T`, when
the specialization exists; `none` for a non-enumerated reference type
(no specialization — the member does not exist). -/
def fieldTraitsSig : FType → Option String
  | .objT => some "Ljava/lang/Object;"
  | .strT => some "Ljava/lang/String;"
  | .boolT => some "Z"
  | .byteT => some "B"
  | .charT => some "C"
  | .shortT => some "S"
  | .intT => some "I"
  | .longT => some "J"
  | .floatT => some "F"
  | .doubleT => some "D"
  | .otherRefT => none

/-- Whether `static_cast<T>(jobject)` is well-formed C++: it is for
reference (pointer) types only; a pointer cannot be `static_cast` to a
primitive numeric / boolean / char type. -/
def isRefFType : FType → Bool
  | .objT => true
  | .strT => true
  | .otherRefT => true
  | _ => false

/-- The `RType` tag of the `JNITypeTraits<T>` read slot used when no
signature override is given (unreachable for `otherRefT`, whose
specialization does not exist). -/
def rtypeOfF : FType → RType
  | .objT => .obj
  | .strT => .str
  | .boolT => .boolT
  | .byteT => .byteT
  | .charT => .charT
  | .shortT => .shortT
  | .intT => .intT
  | .longT => .longT
  | .floatT => .floatT
  | .doubleT => .doubleT
  | .otherRefT => .obj

/-- `jni::GetField<T>(env, obj, fieldName, signature = nullptr)`.

The outer `Option` models C++ template instantiation of the function
body: `none` means the instantiation is ill-formed and the program does
not compile.  The body contains, for every instantiation (they are an
ordinary `?:` and an ordinary `if`, not `if constexpr`):
  * `JNITypeTraits<T>::signature` — requires the `T` specialization;
  * `static_cast<T>(JNITypeTraits<jobject>::GetField(...))` — requires
    `T` to be a reference type;
  * `JNITypeTraits<T>::GetField(...)` — exists for every enumerated
    field type (and is unreachable otherwise).
At runtime: resolve the class of `obj` (guarded), resolve the field id
against the override signature when given, else against the canonical
signature; read through the generic-object slot and cast (a no-op on
handles) when an override is given, else through `T`'s own slot. -/
def GetField (t : FType) (e : Env) (obj : Nat) (fieldName : String)
    (signature : Option String) : Option (Except JNIException JValue × Env) :=
  match fieldTraitsSig t with
  | none => none
  | some canonical =>
    if isRefFType t = false then none
    else some (
      let cls := e.world.getObjectClass obj
      let fieldSig := signature.getD canonical
      match GetFieldID e cls fieldName fieldSig with
      | (.error ex, e1) => (.error ex, ScopedLocalRef.destruct ⟨some cls⟩ e1)
      | (.ok fid, e1) =>
        match signature with
        | some _ =>
          match traitsGetField .obj e1 obj fid with
          | (.error ex, e2) => (.error ex, ScopedLocalRef.destruct ⟨some cls⟩ e2)
          | (.ok v, e2) => (.ok v, ScopedLocalRef.destruct ⟨some cls⟩ e2)
        | none =>
          match traitsGetField (rtypeOfF t) e1 obj fid with
          | (.error ex, e2) => (.error ex, ScopedLocalRef.destruct ⟨some cls⟩ e2)
          | (.ok v, e2) => (.ok v, ScopedLocalRef.destruct ⟨some cls⟩ e2))

/-- `jni::GetStaticField<T>(env, className, fieldName, signature =
nullptr)`; same instantiation requirements as `GetField`. -/
def GetStaticField (t : FType) (e : Env) (className fieldName : String)
    (signature : Option String) : Option (Except JNIException JValue × Env) :=
  match fieldTraitsSig t with
  | none => none
  | some canonical =>
    if isRefFType t = false then none
    else some (
      match FindClass e className with
      | (.error ex, e1) => (.error ex, e1)
      | (.ok cls, e1) =>
        let fieldSig := signature.getD canonical
        match GetStaticFieldID e1 cls fieldName fieldSig with
        | (.error ex, e2) => (.error ex, ScopedLocalRef.destruct ⟨some cls⟩ e2)
        | (.ok fid, e2) =>
          match signature with
          | some _ =>
            match traitsGetStaticField .obj e2 cls fid with
            | (.error ex, e3) => (.error ex, ScopedLocalRef.destruct ⟨some cls⟩ e3)
            | (.ok v, e3) => (.ok v, ScopedLocalRef.destruct ⟨some cls⟩ e3)
          | none =>
            match traitsGetStaticField (rtypeOfF t) e2 cls fid with
            | (.error ex, e3) => (.error ex, ScopedLocalRef.destruct ⟨some cls⟩ e3)
            | (.ok v, e3) => (.ok v, ScopedLocalRef.destruct ⟨some cls⟩ e3))

/-- A small concrete runtime used to instantiate theorems with
hypotheses: one class, a faulting method, two plain methods, a static
method, two instance fields and a static field. -/
def testWorld : World where
  findClass := fun n => if n = "com/example/Foo" then some 10 else none
  getObjectClass := fun _ => 20
  methodID := fun cls n s =>
    if cls = 20 ∧ n = "boom" ∧ s = "()V" then some 31
    else if cls = 20 ∧ n = "bar" ∧ s = "()I" then some 32
    else if cls = 20 ∧ n = "sum" ∧ s = "(II)I" then some 33
    else if cls = 10 ∧ n = "<init>" ∧ s = "()V" then some 34
    else none
  staticMethodID := fun cls n s =>
    if cls = 10 ∧ n = "sbar" ∧ s = "()I" then some 41 else none
  fieldID := fun cls n s =>
    if cls = 20 ∧ n = "name" ∧ s = "Ljava/lang/String;" then some 51
    else if cls = 20 ∧ n = "other" ∧ s = "Lcom/example/Bar;" then some 52
    else none
  staticFieldID := fun cls n s =>
    if cls = 10 ∧ n = "sname" ∧ s = "Ljava/lang/String;" then some 53 else none
  arity := fun mid => if mid = 33 then 2 else 0
  invokeVirtual := fun _ mid args =>
    if mid = 31 then .throws 99
    else if mid = 32 then .ret (.i 7)
    else if mid = 33 ∧ args = [.i 2, .i 3] then .ret (.i 5)
    else .ret .uninit
  invokeStatic := fun _ mid _ => if mid = 41 then .ret (.i 9) else .ret .uninit
  newObjA := fun _ _ _ => .made 60
  readField := fun _ fid => if fid = 51 then .l (some 70) else .l (some 71)
  readStaticField := fun _ _ => .l (some 72)
  stringAllocFails := false

/-- A pristine environment over `testWorld`. -/
def testEnv : Env :=
  { world := testWorld, pending := none, strings := [], deleted := [],
    releasedChars := [], calls := [], arraysBuilt := 0 }

/-- `testEnv` with one pre-existing string in the pool. -/
def testEnvStr : Env := { testEnv with strings := ["hello"] }

/-- An environment whose runtime fails string allocation
(`NewStringUTF` returns null and leaves an `OutOfMemoryError` pending). -/
def oomEnv : Env :=
  { testEnv with world := { testWorld with stringAllocFails := true } }

/-- `testEnv` with a stale pending foreign fault. -/
def pendingEnv : Env := { testEnv with pending := some (.appThrown 99) }

theorem list_get_concat_length {α : Type} (l : List α) (a : α) :
    (l ++ [a]).get? l.length = some a := by
  induction l with
  | nil => rfl
  | cons x xs ih => simp [ih]

theorem cString_eq_self {s : String} (h : noNullChars s = true) : cString s = s := by
  unfold noNullChars at h
  unfold cString
  rw [List.takeWhile_eq_self_iff.mpr]
  · cases s; rfl
  · intro x hx
    exact List.all_eq_true.mp h x hx

/-- Claim C4: over a Scoped Guard's lifetime the held handle is released
at most once — a guard holding null performs no release on destruction;
`release()` hands back the handle and nulls the internal reference, so a
destruction following `release()` performs no release; destruction of a
guard still holding a handle issues exactly one `DeleteLocalRef`, and in
general destruction adds at most one entry to the deletion log. -/
theorem scoped_guard_release_at_most_once :
    (∀ e : Env, ScopedLocalRef.destruct ⟨none⟩ e = e) ∧
    (∀ g : ScopedLocalRef, g.release.1 = g.ref ∧ g.release.2 = ⟨none⟩) ∧
    (∀ (g : ScopedLocalRef) (e : Env), g.release.2.destruct e = e) ∧
    (∀ (r : Nat) (e : Env),
      ScopedLocalRef.destruct ⟨some r⟩ e = { e with deleted := e.deleted ++ [r] }) ∧
    (∀ (g : ScopedLocalRef) (e : Env),
      (g.destruct e).deleted.length ≤ e.deleted.length + 1) := by
  refine ⟨fun e => rfl, fun g => ⟨rfl, rfl⟩, fun g e => rfl, fun r e => rfl, fun g e => ?_⟩
  rcases g with ⟨_ | r⟩
  · simp [ScopedLocalRef.destruct]
  · simp [ScopedLocalRef.destruct, deleteLocalRef]

/-- Claim C6: `JStringToString` never fails — it returns the empty string
on a null handle and when the runtime does not expose the character data;
otherwise it copies the character data into the local string and
immediately releases the character buffer (the deletion log is untouched:
the string handle itself is not released). -/
theorem jstring_to_string_total :
    (∀ e : Env, JStringToString e none = ("", e)) ∧
    (∀ (e : Env) (h : Nat), getStringUTFChars e h = none →
      JStringToString e (some h) = ("", e)) ∧
    (∀ (e : Env) (h : Nat) (chars : String), getStringUTFChars e h = some chars →
      JStringToString e (some h) =
        (cString chars, { e with releasedChars := e.releasedChars ++ [h] })) := by
  refine ⟨fun e => rfl, fun e h hc => ?_, fun e h chars hc => ?_⟩
  · simp [JStringToString, hc]
  · simp [JStringToString, hc, releaseStringUTFChars]

/-- Witness for C6 at concrete inputs: handle 0 is valid (content
"hello"), handle 5 is not. -/
theorem jstring_to_string_total_witness :
    JStringToString testEnvStr none = ("", testEnvStr) ∧
    JStringToString testEnvStr (some 5) = ("", testEnvStr) ∧
    JStringToString testEnvStr (some 0) =
      (cString "hello", { testEnvStr with releasedChars := testEnvStr.releasedChars ++ [0] }) :=
  ⟨jstring_to_string_total.1 testEnvStr,
   jstring_to_string_total.2.1 testEnvStr 5 rfl,
   jstring_to_string_total.2.2 testEnvStr 0 "hello" rfl⟩

/-- Claim C7: converting a local string (with no embedded null bytes) to
a foreign string handle and back is the identity, provided the runtime
can allocate the string. -/
theorem string_roundtrip_id :
    ∀ (e : Env) (str : String), noNullChars str = true →
      e.world.stringAllocFails = false →
      ∃ h : Nat, (StringToJString e str).1 = some h ∧
        (JStringToString (StringToJString e str).2 (some h)).1 = str := by
  intro e str hnn hok
  refine ⟨e.strings.length, ?_, ?_⟩
  · simp [StringToJString, newStringUTF, hok]
  · simp [StringToJString, newStringUTF, hok, JStringToString, getStringUTFChars,
      list_get_concat_length, cString_eq_self hnn]

/-- Witness for C7 at a concrete input. -/
theorem string_roundtrip_id_witness :
    ∃ h : Nat, (StringToJString testEnv "hi").1 = some h ∧
      (JStringToString (StringToJString testEnv "hi").2 (some h)).1 = "hi" :=
  string_roundtrip_id testEnv "hi" (by decide) rfl

theorem convertArgs_length (args : List Arg) :
    ∀ e : Env, (convertArgs e args).1.length = args.length := by
  induction args with
  | nil => intro e; rfl
  | cons a rest ih => intro e; simp [convertArgs, ih]

theorem convertArgs_get (args : List Arg) :
    ∀ (e : Env) (k : Nat) (hk : k < args.length),
      (convertArgs e args).1.get? k =
        some (setJValue (convertArgs e (args.take k)).2 (args.get ⟨k, hk⟩)).1 := by
  induction args with
  | nil => intro e k hk; exact absurd hk (Nat.not_lt_zero k)
  | cons a rest ih =>
    intro e k hk
    cases k with
    | zero => simp [convertArgs]
    | succ k2 =>
      simp only [convertArgs, List.take, List.get, List.get?]
      exact ih (setJValue e a).2 k2 (Nat.lt_of_succ_lt_succ hk)

/-- Claim C5: for every argument count N ≥ 0 the Argument Cell Array has
length `max N 1`, and for every position `k < N` cell `k` holds the
converted value of argument `k` (converted in declared order: in the
environment reached after converting arguments `0 .. k-1`). -/
theorem args_packer_length_and_order :
    ∀ (e : Env) (args : List Arg),
      (ArgsToJValues e args).1.length = max args.length 1 ∧
      ∀ (k : Nat) (hk : k < args.length),
        (ArgsToJValues e args).1.get? k =
          some (setJValue (convertArgs e (args.take k)).2 (args.get ⟨k, hk⟩)).1 := by
  intro e args
  constructor
  · cases hargs : args with
    | nil => rfl
    | cons a rest =>
      simp [ArgsToJValues, convertArgs_length, Nat.max_eq_left (Nat.succ_le_succ (Nat.zero_le _))]
  · intro k hk
    have hne : args.length ≠ 0 :=
      Nat.pos_iff_ne_zero.mp (Nat.lt_of_le_of_lt (Nat.zero_le k) hk)
    simp only [ArgsToJValues]
    rw [if_neg hne]
    exact convertArgs_get args e k hk

/-- Witness for C5 at a concrete input: two arguments, cell 1 inspected. -/
theorem args_packer_length_and_order_witness :
    (ArgsToJValues testEnv [Arg.iArg 2, Arg.strArg "hi"]).1.length =
      max [Arg.iArg 2, Arg.strArg "hi"].length 1 ∧
    (ArgsToJValues testEnv [Arg.iArg 2, Arg.strArg "hi"]).1.get? 1 =
      some (setJValue (convertArgs testEnv ([Arg.iArg 2, Arg.strArg "hi"].take 1)).2
        ([Arg.iArg 2, Arg.strArg "hi"].get ⟨1, by decide⟩)).1 :=
  ⟨(args_packer_length_and_order testEnv [Arg.iArg 2, Arg.strArg "hi"]).1,
   (args_packer_length_and_order testEnv [Arg.iArg 2, Arg.strArg "hi"]).2 1 (by decide)⟩

theorem newStringUTF_calls (e : Env) (chars : String) :
    (newStringUTF e chars).2.calls = e.calls ++ [PrimCall.newString chars] := by
  unfold newStringUTF
  split <;> rfl

theorem setJValue_calls (e : Env) (a : Arg) :
    (setJValue e a).2.calls = e.calls ++ (promotedStrings [a]).map PrimCall.newString := by
  rcases a with v | v | v | v | v | v | v | v | _ | r | str | cs
  all_goals try simp [setJValue, promotedStrings]
  · simp [setJValue, promotedStrings, StringToJString, newStringUTF_calls]
  · rcases cs with _ | chars
    · simp [setJValue, promotedStrings]
    · simp [setJValue, promotedStrings, newStringUTF_calls]

theorem promotedStrings_cons (a : Arg) (rest : List Arg) :
    promotedStrings (a :: rest) = promotedStrings [a] ++ promotedStrings rest := by
  rcases a with v | v | v | v | v | v | v | v | _ | r | str | cs
  all_goals try rfl
  rcases cs with _ | chars <;> rfl

theorem convertArgs_calls (args : List Arg) :
    ∀ e : Env,
      (convertArgs e args).2.calls =
        e.calls ++ (promotedStrings args).map PrimCall.newString := by
  induction args with
  | nil => intro e; simp [convertArgs, promotedStrings]
  | cons a rest ih =>
    intro e
    simp only [convertArgs]
    rw [ih (setJValue e a).2, setJValue_calls, promotedStrings_cons a rest,
      List.map_append, List.append_assoc]

/-- Claim C10: a null `const char*` argument is stored as a null foreign
reference with no effect on the environment (in particular, no foreign
string-creation call is logged for it); the string-creation calls of a
whole packing run are exactly the promotions of the `std::string` and
non-null `const char*` arguments, and a null `const char*` argument
contributes none. -/
theorem null_cstring_no_promotion :
    (∀ e : Env, setJValue e (Arg.cstrArg none) = (JValue.l none, e)) ∧
    (∀ (e : Env) (args : List Arg),
      (convertArgs e args).2.calls =
        e.calls ++ (promotedStrings args).map PrimCall.newString) ∧
    (∀ pre post : List Arg,
      promotedStrings (pre ++ Arg.cstrArg none :: post) =
        promotedStrings pre ++ promotedStrings post) := by
  refine ⟨fun e => rfl, fun e args => convertArgs_calls args e, fun pre post => ?_⟩
  induction pre with
  | nil => rfl
  | cons a rest ih =>
    rw [List.cons_append, promotedStrings_cons, ih, promotedStrings_cons a rest,
      List.append_assoc]

/-- Claim C1: the Exception Bridge is a no-op when no fault is pending;
with a pending fault it retrieves the fault object, clears the pending
flag and fails the operation with an error carrying the retrieved fault;
end to end, a wrapper call whose target raises a foreign-side fault
fails with that fault, leaves the pending flag cleared, and a subsequent
unrelated call on the same context succeeds. -/
theorem exception_bridge_clears_and_carries :
    (∀ e : Env, e.pending = none → jniCheckException e = (Except.ok (), e)) ∧
    (∀ (e : Env) (t : Throwable), e.pending = some t →
      jniCheckException e =
        (Except.error ⟨"JNI exception occurred", some t⟩, { e with pending := none })) ∧
    (∀ (rt rt2 : RType) (e : Env) (obj obj2 mid mid2 fault : Nat)
        (n s n2 s2 : String) (v : JValue),
      e.pending = none →
      e.world.methodID (e.world.getObjectClass obj) n s = some mid →
      e.world.invokeVirtual obj mid [] = CallOutcome.throws fault →
      e.world.methodID (e.world.getObjectClass obj2) n2 s2 = some mid2 →
      e.world.invokeVirtual obj2 mid2 [] = CallOutcome.ret v →
      (CallMethod rt e obj n s []).1 =
        Except.error ⟨"JNI exception occurred", some (.appThrown fault)⟩ ∧
      (CallMethod rt e obj n s []).2.pending = none ∧
      (CallMethod rt2 (CallMethod rt e obj n s []).2 obj2 n2 s2 []).1 = Except.ok v) := by
  refine ⟨?_, ?_, ?_⟩
  · intro e hp
    simp [jniCheckException, exceptionCheck, hp]
  · intro e t hp
    simp [jniCheckException, exceptionCheck, exceptionOccurred, exceptionClear, hp]
  · intro rt rt2 e obj obj2 mid mid2 fault n s n2 s2 v hp hm hv hm2 hv2
    refine ⟨?_, ?_, ?_⟩ <;>
      simp [CallMethod, GetMethodID, envGetMethodID, hm, hm2, jniCheckException,
        exceptionCheck, exceptionOccurred, exceptionClear, hp, envCallMethodDirect,
        hv, hv2, ScopedLocalRef.destruct, deleteLocalRef]

/-- Witness for C1: the bridge clears and carries a concrete pending
fault, and the faulting call `boom` followed by the unrelated call `bar`
on the same context. -/
theorem exception_bridge_witness :
    jniCheckException pendingEnv =
      (Except.error ⟨"JNI exception occurred", some (.appThrown 99)⟩,
        { pendingEnv with pending := none }) ∧
    (CallMethod .voidT testEnv 1 "boom" "()V" []).1 =
      Except.error ⟨"JNI exception occurred", some (.appThrown 99)⟩ ∧
    (CallMethod .voidT testEnv 1 "boom" "()V" []).2.pending = none ∧
    (CallMethod .intT (CallMethod .voidT testEnv 1 "boom" "()V" []).2 2 "bar" "()I" []).1 =
      Except.ok (.i 7) :=
  ⟨exception_bridge_clears_and_carries.2.1 pendingEnv (.appThrown 99) rfl,
   exception_bridge_clears_and_carries.2.2 .voidT .intT testEnv 1 2 31 32 99
     "boom" "()V" "bar" "()I" (.i 7) rfl (by decide) (by decide) (by decide) (by decide)⟩

/-- Claim C3 (refuting evaluation): `StringToJString` and the string
overloads of `ArgsToJValues::setJValue` perform the foreign call
`NewStringUTF` and return normally, without the pending-fault check ever
running before the operation returns — when allocation fails, the
operation completes (returning a null handle / null cell) while the
`OutOfMemoryError` is still pending on the context. -/
theorem unchecked_foreign_call_sites :
    (StringToJString oomEnv "abc").1 = none ∧
    (StringToJString oomEnv "abc").2.pending = some Throwable.outOfMemoryError ∧
    (setJValue oomEnv (Arg.strArg "abc")).1 = JValue.l none ∧
    (setJValue oomEnv (Arg.strArg "abc")).2.pending = some Throwable.outOfMemoryError ∧
    (setJValue oomEnv (Arg.cstrArg (some "abc"))).2.pending =
      some Throwable.outOfMemoryError :=
  ⟨rfl, rfl, rfl, rfl, rfl⟩

/-- Claim C9 (evaluation): `GetField<T>` / `GetStaticField<T>` only
instantiate for reference types with a `JNITypeTraits` specialization
(`jobject`, `jstring`): for a primitive `T` (with or without a signature
override) and for a non-enumerated reference `T` the instantiation is
ill-formed (`none`).  For the instantiations that exist: with an
override, the field id is resolved against the override signature and
the read goes through the generic-object slot; without an override,
resolution uses `T`'s canonical signature and the read goes through
`T`'s own slot. -/
theorem field_access_requires_specialization :
    GetField .intT testEnv 5 "count" none = none ∧
    GetField .boolT testEnv 5 "flag" (some "Z") = none ∧
    GetField .otherRefT testEnv 5 "other" (some "Lcom/example/Bar;") = none ∧
    (GetField .strT testEnv 5 "other" (some "Lcom/example/Bar;")).map
        (fun out => (out.1, out.2.calls)) =
      some (Except.ok (JValue.l (some 71)), [PrimCall.getFieldPrim .obj 5 52]) ∧
    (GetField .strT testEnv 5 "name" none).map (fun out => (out.1, out.2.calls)) =
      some (Except.ok (JValue.l (some 70)), [PrimCall.getFieldPrim .str 5 51]) ∧
    GetStaticField .intT testEnv "com/example/Foo" "scount" none = none ∧
    (GetStaticField .strT testEnv "com/example/Foo" "sname" none).map
        (fun out => (out.1, out.2.calls)) =
      some (Except.ok (JValue.l (some 72)), [PrimCall.getStaticFieldPrim .str 10 53]) :=
  ⟨rfl, rfl, rfl, rfl, rfl, rfl, rfl⟩

/-- Claim C8: a zero-argument wrapper call invokes the direct
(non-array) foreign primitive for the requested return type, builds no
Argument Cell Array (the ghost counter is unchanged, while the
spec-level always-through-the-table variant increments it), and — when
the resolved method takes zero parameters — produces the same result as
dispatching through the Typed Dispatch Table entry. -/
theorem zero_arg_direct_call_refines_table :
    (∀ (rt : RType) (e : Env) (obj mid : Nat) (n s : String),
      e.pending = none →
      e.world.methodID (e.world.getObjectClass obj) n s = some mid →
      (CallMethod rt e obj n s []).2.arraysBuilt = e.arraysBuilt ∧
      (CallMethod rt e obj n s []).2.calls = e.calls ++ [PrimCall.callDirect rt obj mid] ∧
      (CallMethodViaTable rt e obj n s []).2.arraysBuilt = e.arraysBuilt + 1 ∧
      (e.world.arity mid = 0 →
        (CallMethod rt e obj n s []).1 = (CallMethodViaTable rt e obj n s []).1)) ∧
    (∀ (rt : RType) (e : Env) (cls mid : Nat) (cname n s : String),
      e.pending = none →
      e.world.findClass cname = some cls →
      e.world.staticMethodID cls n s = some mid →
      (CallStaticMethod rt e cname n s []).2.arraysBuilt = e.arraysBuilt ∧
      (CallStaticMethod rt e cname n s []).2.calls =
        e.calls ++ [PrimCall.callStaticDirect rt cls mid] ∧
      (CallStaticMethodViaTable rt e cname n s []).2.arraysBuilt = e.arraysBuilt + 1 ∧
      (e.world.arity mid = 0 →
        (CallStaticMethod rt e cname n s []).1 =
          (CallStaticMethodViaTable rt e cname n s []).1)) := by
  constructor
  · intro rt e obj mid n s hp hm
    refine ⟨?_, ?_, ?_, fun har => ?_⟩
    · rcases hinv : e.world.invokeVirtual obj mid [] with v | t <;>
        simp [CallMethod, GetMethodID, envGetMethodID, hm, jniCheckException,
          exceptionCheck, exceptionOccurred, exceptionClear, hp,
          envCallMethodDirect, ScopedLocalRef.destruct, deleteLocalRef, hinv]
    · rcases hinv : e.world.invokeVirtual obj mid [] with v | t <;>
        simp [CallMethod, GetMethodID, envGetMethodID, hm, jniCheckException,
          exceptionCheck, exceptionOccurred, exceptionClear, hp,
          envCallMethodDirect, ScopedLocalRef.destruct, deleteLocalRef, hinv]
    · rcases hinv : e.world.invokeVirtual obj mid
          (List.take (e.world.arity mid) [JValue.uninit]) with v | t <;>
        simp [CallMethodViaTable, GetMethodID, envGetMethodID, hm, jniCheckException,
          exceptionCheck, exceptionOccurred, exceptionClear, hp, ArgsToJValues,
          convertArgs, traitsCallMethod, envCallMethodA, ScopedLocalRef.destruct,
          deleteLocalRef, hinv]
    · rcases hinv : e.world.invokeVirtual obj mid [] with v | t <;>
        simp [CallMethod, CallMethodViaTable, GetMethodID, envGetMethodID, hm,
          jniCheckException, exceptionCheck, exceptionOccurred, exceptionClear, hp,
          envCallMethodDirect, ArgsToJValues, convertArgs, traitsCallMethod,
          envCallMethodA, ScopedLocalRef.destruct, deleteLocalRef, har, hinv]
  · intro rt e cls mid cname n s hp hf hm
    refine ⟨?_, ?_, ?_, fun har => ?_⟩
    · rcases hinv : e.world.invokeStatic cls mid [] with v | t <;>
        simp [CallStaticMethod, FindClass, envFindClass, hf, GetStaticMethodID,
          envGetStaticMethodID, hm, jniCheckException, exceptionCheck,
          exceptionOccurred, exceptionClear, hp, envCallStaticDirect,
          ScopedLocalRef.destruct, deleteLocalRef, hinv]
    · rcases hinv : e.world.invokeStatic cls mid [] with v | t <;>
        simp [CallStaticMethod, FindClass, envFindClass, hf, GetStaticMethodID,
          envGetStaticMethodID, hm, jniCheckException, exceptionCheck,
          exceptionOccurred, exceptionClear, hp, envCallStaticDirect,
          ScopedLocalRef.destruct, deleteLocalRef, hinv]
    · rcases hinv : e.world.invokeStatic cls mid
          (List.take (e.world.arity mid) [JValue.uninit]) with v | t <;>
        simp [CallStaticMethodViaTable, FindClass, envFindClass, hf, GetStaticMethodID,
          envGetStaticMethodID, hm, jniCheckException, exceptionCheck,
          exceptionOccurred, exceptionClear, hp, ArgsToJValues, convertArgs,
          traitsCallStaticMethod, envCallStaticA, ScopedLocalRef.destruct,
          deleteLocalRef, hinv]
    · rcases hinv : e.world.invokeStatic cls mid [] with v | t <;>
        simp [CallStaticMethod, CallStaticMethodViaTable, FindClass, envFindClass, hf,
          GetStaticMethodID, envGetStaticMethodID, hm, jniCheckException,
          exceptionCheck, exceptionOccurred, exceptionClear, hp, envCallStaticDirect,
          ArgsToJValues, convertArgs, traitsCallStaticMethod, envCallStaticA,
          ScopedLocalRef.destruct, deleteLocalRef, har, hinv]

/-- Witness for C8 at the concrete zero-parameter methods `bar` and
`sbar`. -/
theorem zero_arg_direct_call_witness :
    (CallMethod .intT testEnv 1 "bar" "()I" []).2.arraysBuilt = testEnv.arraysBuilt ∧
    (CallMethod .intT testEnv 1 "bar" "()I" []).2.calls =
      testEnv.calls ++ [PrimCall.callDirect .intT 1 32] ∧
    (CallMethodViaTable .intT testEnv 1 "bar" "()I" []).2.arraysBuilt =
      testEnv.arraysBuilt + 1 ∧
    (CallMethod .intT testEnv 1 "bar" "()I" []).1 =
      (CallMethodViaTable .intT testEnv 1 "bar" "()I" []).1 ∧
    (CallStaticMethod .intT testEnv "com/example/Foo" "sbar" "()I" []).2.calls =
      testEnv.calls ++ [PrimCall.callStaticDirect .intT 10 41] ∧
    (CallStaticMethod .intT testEnv "com/example/Foo" "sbar" "()I" []).1 =
      (CallStaticMethodViaTable .intT testEnv "com/example/Foo" "sbar" "()I" []).1 := by
  obtain ⟨h1, h2, h3, h4⟩ :=
    zero_arg_direct_call_refines_table.1 .intT testEnv 1 32 "bar" "()I" rfl (by decide)
  obtain ⟨g1, g2, g3, g4⟩ :=
    zero_arg_direct_call_refines_table.2 .intT testEnv 10 41 "com/example/Foo"
      "sbar" "()I" rfl (by decide) (by decide)
  exact ⟨h1, h2, h3, h4 (by decide), g2, g4 (by decide)⟩

theorem jniCheck_error_inv {e e1 : Env} {ex : JNIException}
    (h : jniCheckException e = (Except.error ex, e1)) :
    ∃ t, e.pending = some t ∧ ex = ⟨"JNI exception occurred", some t⟩ ∧
      e1 = { e with pending := none } := by
  rcases hp : e.pending with _ | t
  · simp [jniCheckException, exceptionCheck, hp] at h
  · simp [jniCheckException, exceptionCheck, exceptionOccurred, exceptionClear, hp] at h
    exact ⟨t, rfl, h.1.symm, h.2.symm⟩

theorem jniCheck_error_isSome {e e1 : Env} {ex : JNIException}
    (h : jniCheckException e = (Except.error ex, e1)) : ex.javaThrowable.isSome := by
  obtain ⟨t, _, hex, _⟩ := jniCheck_error_inv h
  rw [hex]
  rfl

theorem kind_isSome_of_throwable {ex : JNIException} (h : ex.javaThrowable.isSome) :
    ∃ k, ex.kind = some k := by
  rcases ex with ⟨m, _ | t⟩
  · simp at h
  · exact ⟨t.kind, rfl⟩

theorem FindClass_error_isSome {e e1 : Env} {cname : String} {ex : JNIException}
    (h : FindClass e cname = (Except.error ex, e1)) : ex.javaThrowable.isSome := by
  unfold FindClass at h
  split at h
  next cls e2 heq1 =>
    rcases hj : jniCheckException e2 with ⟨r, e3⟩
    rw [hj] at h
    cases r with
    | ok u => simp at h
    | error ex3 =>
      simp at h
      rw [← h.1]
      exact jniCheck_error_isSome hj

theorem GetMethodID_error_isSome {e e1 : Env} {cls : Nat} {n s : String}
    {ex : JNIException} (h : GetMethodID e cls n s = (Except.error ex, e1)) :
    ex.javaThrowable.isSome := by
  unfold GetMethodID at h
  split at h
  next mid e2 heq1 =>
    rcases hj : jniCheckException e2 with ⟨r, e3⟩
    rw [hj] at h
    cases r with
    | ok u => simp at h
    | error ex3 =>
      simp at h
      rw [← h.1]
      exact jniCheck_error_isSome hj

theorem GetStaticMethodID_error_isSome {e e1 : Env} {cls : Nat} {n s : String}
    {ex : JNIException} (h : GetStaticMethodID e cls n s = (Except.error ex, e1)) :
    ex.javaThrowable.isSome := by
  unfold GetStaticMethodID at h
  split at h
  next mid e2 heq1 =>
    rcases hj : jniCheckException e2 with ⟨r, e3⟩
    rw [hj] at h
    cases r with
    | ok u => simp at h
    | error ex3 =>
      simp at h
      rw [← h.1]
      exact jniCheck_error_isSome hj

theorem GetFieldID_error_isSome {e e1 : Env} {cls : Nat} {n s : String}
    {ex : JNIException} (h : GetFieldID e cls n s = (Except.error ex, e1)) :
    ex.javaThrowable.isSome := by
  unfold GetFieldID at h
  split at h
  next fid e2 heq1 =>
    rcases hj : jniCheckException e2 with ⟨r, e3⟩
    rw [hj] at h
    cases r with
    | ok u => simp at h
    | error ex3 =>
      simp at h
      rw [← h.1]
      exact jniCheck_error_isSome hj

theorem GetStaticFieldID_error_isSome {e e1 : Env} {cls : Nat} {n s : String}
    {ex : JNIException} (h : GetStaticFieldID e cls n s = (Except.error ex, e1)) :
    ex.javaThrowable.isSome := by
  unfold GetStaticFieldID at h
  split at h
  next fid e2 heq1 =>
    rcases hj : jniCheckException e2 with ⟨r, e3⟩
    rw [hj] at h
    cases r with
    | ok u => simp at h
    | error ex3 =>
      simp at h
      rw [← h.1]
      exact jniCheck_error_isSome hj

theorem traitsCallMethod_error_isSome {rt : RType} {e : Env} {obj mid : Nat}
    {args : List JValue} {ex : JNIException} {e1 : Env}
    (h : traitsCallMethod rt e obj mid args = (Except.error ex, e1)) :
    ex.javaThrowable.isSome := by
  unfold traitsCallMethod at h
  split at h
  next result e2 heq1 =>
    rcases hj : jniCheckException e2 with ⟨r, e3⟩
    rw [hj] at h
    cases r with
    | ok u => simp at h
    | error ex3 =>
      simp at h
      rw [← h.1]
      exact jniCheck_error_isSome hj

theorem traitsCallStaticMethod_error_isSome {rt : RType} {e : Env} {cls mid : Nat}
    {args : List JValue} {ex : JNIException} {e1 : Env}
    (h : traitsCallStaticMethod rt e cls mid args = (Except.error ex, e1)) :
    ex.javaThrowable.isSome := by
  unfold traitsCallStaticMethod at h
  split at h
  next result e2 heq1 =>
    rcases hj : jniCheckException e2 with ⟨r, e3⟩
    rw [hj] at h
    cases r with
    | ok u => simp at h
    | error ex3 =>
      simp at h
      rw [← h.1]
      exact jniCheck_error_isSome hj

theorem traitsGetField_error_isSome {rt : RType} {e : Env} {obj fid : Nat}
    {ex : JNIException} {e1 : Env}
    (h : traitsGetField rt e obj fid = (Except.error ex, e1)) :
    ex.javaThrowable.isSome := by
  unfold traitsGetField at h
  split at h
  next result e2 heq1 =>
    rcases hj : jniCheckException e2 with ⟨r, e3⟩
    rw [hj] at h
    cases r with
    | ok u => simp at h
    | error ex3 =>
      simp at h
      rw [← h.1]
      exact jniCheck_error_isSome hj

theorem traitsGetStaticField_error_isSome {rt : RType} {e : Env} {cls fid : Nat}
    {ex : JNIException} {e1 : Env}
    (h : traitsGetStaticField rt e cls fid = (Except.error ex, e1)) :
    ex.javaThrowable.isSome := by
  unfold traitsGetStaticField at h
  split at h
  next result e2 heq1 =>
    rcases hj : jniCheckException e2 with ⟨r, e3⟩
    rw [hj] at h
    cases r with
    | ok u => simp at h
    | error ex3 =>
      simp at h
      rw [← h.1]
      exact jniCheck_error_isSome hj

theorem CallMethod_error_isSome {rt : RType} {e : Env} {obj : Nat} {n s : String}
    {args : List Arg} {ex : JNIException} {e1 : Env}
    (h : CallMethod rt e obj n s args = (Except.error ex, e1)) :
    ex.javaThrowable.isSome := by
  unfold CallMethod at h
  split at h
  all_goals dsimp only at h
  · split at h
    next ex2 e2 heq =>
      simp at h
      rw [← h.1]
      exact GetMethodID_error_isSome heq
    next mid e2 heq =>
      rcases hj : jniCheckException (envCallMethodDirect e2 rt obj mid).2 with ⟨r, e4⟩
      rw [hj] at h
      cases r with
      | ok u => simp at h
      | error ex3 =>
        simp at h
        rw [← h.1]
        exact jniCheck_error_isSome hj
  · split at h
    next ex2 e2 heq =>
      simp at h
      rw [← h.1]
      exact GetMethodID_error_isSome heq
    next mid e2 heq =>
      rcases ht : traitsCallMethod rt (ArgsToJValues e2 args).2 obj mid
          (ArgsToJValues e2 args).1 with ⟨r, e4⟩
      rw [ht] at h
      cases r with
      | ok v => simp at h
      | error ex3 =>
        simp at h
        rw [← h.1]
        exact traitsCallMethod_error_isSome ht


theorem CallStaticMethod_error_isSome {rt : RType} {e : Env} {cname n s : String}
    {args : List Arg} {ex : JNIException} {e1 : Env}
    (h : CallStaticMethod rt e cname n s args = (Except.error ex, e1)) :
    ex.javaThrowable.isSome := by
  unfold CallStaticMethod at h
  split at h
  next ex2 e2 heq =>
    simp at h
    rw [← h.1]
    exact FindClass_error_isSome heq
  next cls e2 heq =>
    split at h
    next ex2 e3 heq2 =>
      simp at h
      rw [← h.1]
      exact GetStaticMethodID_error_isSome heq2
    next mid e3 heq2 =>
      split at h
      all_goals try dsimp only at h
      · rcases hj : jniCheckException (envCallStaticDirect e3 rt cls mid).2 with ⟨r, e4⟩
        rw [hj] at h
        cases r with
        | ok u => simp at h
        | error ex3 =>
          simp at h
          rw [← h.1]
          exact jniCheck_error_isSome hj
      · rcases ht : traitsCallStaticMethod rt (ArgsToJValues e3 args).2 cls mid
            (ArgsToJValues e3 args).1 with ⟨r, e4⟩
        rw [ht] at h
        cases r with
        | ok v => simp at h
        | error ex3 =>
          simp at h
          rw [← h.1]
          exact traitsCallStaticMethod_error_isSome ht

theorem NewObject_error_isSome {e : Env} {cname csig : String} {args : List Arg}
    {ex : JNIException} {e1 : Env}
    (h : NewObject e cname csig args = (Except.error ex, e1)) :
    ex.javaThrowable.isSome := by
  unfold NewObject at h
  split at h
  next ex2 e2 heq =>
    simp at h
    rw [← h.1]
    exact FindClass_error_isSome heq
  next cls e2 heq =>
    split at h
    next ex2 e3 heq2 =>
      simp at h
      rw [← h.1]
      exact GetMethodID_error_isSome heq2
    next ctor e3 heq2 =>
      dsimp only at h
      rcases hj : jniCheckException
          (envNewObjectA (ArgsToJValues e3 args).2 cls ctor
            (ArgsToJValues e3 args).1).2 with ⟨r, e4⟩
      rw [hj] at h
      cases r with
      | ok u => simp at h
      | error ex3 =>
        simp at h
        rw [← h.1]
        exact jniCheck_error_isSome hj

theorem GetField_error_isSome {t : FType} {e : Env} {obj : Nat} {fname : String}
    {sg : Option String} {ex : JNIException} {e1 : Env}
    (h : GetField t e obj fname sg = some (Except.error ex, e1)) :
    ex.javaThrowable.isSome := by
  unfold GetField at h
  split at h
  · simp at h
  next canonical heq0 =>
    split at h
    · simp at h
    · simp only [Option.some.injEq] at h
      split at h
      next ex2 e2 heq =>
        simp at h
        rw [← h.1]
        exact GetFieldID_error_isSome heq
      next fid e2 heq =>
        split at h
        next sgv =>
          rcases ht : traitsGetField .obj e2 obj fid with ⟨r, e3⟩
          rw [ht] at h
          cases r with
          | ok v => simp at h
          | error ex3 =>
            simp at h
            rw [← h.1]
            exact traitsGetField_error_isSome ht
        next =>
          rcases ht : traitsGetField (rtypeOfF t) e2 obj fid with ⟨r, e3⟩
          rw [ht] at h
          cases r with
          | ok v => simp at h
          | error ex3 =>
            simp at h
            rw [← h.1]
            exact traitsGetField_error_isSome ht

theorem GetStaticField_error_isSome {t : FType} {e : Env} {cname fname : String}
    {sg : Option String} {ex : JNIException} {e1 : Env}
    (h : GetStaticField t e cname fname sg = some (Except.error ex, e1)) :
    ex.javaThrowable.isSome := by
  unfold GetStaticField at h
  split at h
  · simp at h
  next canonical heq0 =>
    split at h
    · simp at h
    · simp only [Option.some.injEq] at h
      split at h
      next ex2 e2 heq =>
        simp at h
        rw [← h.1]
        exact FindClass_error_isSome heq
      next cls e2 heq =>
        split at h
        next ex2 e3 heq2 =>
          simp at h
          rw [← h.1]
          exact GetStaticFieldID_error_isSome heq2
        next fid e3 heq2 =>
          split at h
          next sgv =>
            rcases ht : traitsGetStaticField .obj e3 cls fid with ⟨r, e4⟩
            rw [ht] at h
            cases r with
            | ok v => simp at h
            | error ex3 =>
              simp at h
              rw [← h.1]
              exact traitsGetStaticField_error_isSome ht
          next =>
            rcases ht : traitsGetStaticField (rtypeOfF t) e3 cls fid with ⟨r, e4⟩
            rw [ht] at h
            cases r with
            | ok v => simp at h
            | error ex3 =>
              simp at h
              rw [← h.1]
              exact traitsGetStaticField_error_isSome ht

/-- Claim C2: a call against a nonexistent member name fails with the
lookup-failure kind (carrying the runtime's `NoSuchMethodError`, with no
call primitive invoked and the environment otherwise untouched), not
with the foreign-fault kind; and every failure any high-level operation
produces is classified by the two-kind taxonomy (it always carries a
pending throwable, whose kind is `lookupFailed` or `foreignFault`). -/
theorem error_taxonomy_two_kinds :
    (∀ (rt : RType) (e : Env) (obj : Nat) (n s : String) (args : List Arg),
      e.world.methodID (e.world.getObjectClass obj) n s = none →
      CallMethod rt e obj n s args =
        (Except.error ⟨"JNI exception occurred", some (.noSuchMethodError n s)⟩,
          { e with pending := none,
                   deleted := e.deleted ++ [e.world.getObjectClass obj] }) ∧
      (⟨"JNI exception occurred", some (.noSuchMethodError n s)⟩ : JNIException).kind =
        some ErrKind.lookupFailed) ∧
    (∀ (rt : RType) (e : Env) (cls : Nat) (cname n s : String) (args : List Arg),
      e.pending = none →
      e.world.findClass cname = some cls →
      e.world.staticMethodID cls n s = none →
      CallStaticMethod rt e cname n s args =
        (Except.error ⟨"JNI exception occurred", some (.noSuchMethodError n s)⟩,
          { e with pending := none, deleted := e.deleted ++ [cls] }) ∧
      (⟨"JNI exception occurred", some (.noSuchMethodError n s)⟩ : JNIException).kind =
        some ErrKind.lookupFailed) ∧
    (∀ (rt : RType) (e e1 : Env) (obj : Nat) (n s : String) (args : List Arg)
        (ex : JNIException),
      CallMethod rt e obj n s args = (Except.error ex, e1) → ∃ k, ex.kind = some k) ∧
    (∀ (rt : RType) (e e1 : Env) (cname n s : String) (args : List Arg)
        (ex : JNIException),
      CallStaticMethod rt e cname n s args = (Except.error ex, e1) →
        ∃ k, ex.kind = some k) ∧
    (∀ (e e1 : Env) (cname csig : String) (args : List Arg) (ex : JNIException),
      NewObject e cname csig args = (Except.error ex, e1) → ∃ k, ex.kind = some k) ∧
    (∀ (t : FType) (e e1 : Env) (obj : Nat) (fname : String) (sg : Option String)
        (ex : JNIException),
      GetField t e obj fname sg = some (Except.error ex, e1) →
        ∃ k, ex.kind = some k) ∧
    (∀ (t : FType) (e e1 : Env) (cname fname : String) (sg : Option String)
        (ex : JNIException),
      GetStaticField t e cname fname sg = some (Except.error ex, e1) →
        ∃ k, ex.kind = some k) := by
  refine ⟨?_, ?_, ?_, ?_, ?_, ?_, ?_⟩
  · intro rt e obj n s args hm
    refine ⟨?_, rfl⟩
    rcases args with _ | ⟨a, rest⟩ <;>
      simp [CallMethod, GetMethodID, envGetMethodID, hm, jniCheckException,
        exceptionCheck, exceptionOccurred, exceptionClear, ScopedLocalRef.destruct,
        deleteLocalRef]
  · intro rt e cls cname n s args hp hf hm
    refine ⟨?_, rfl⟩
    rcases args with _ | ⟨a, rest⟩ <;>
      simp [CallStaticMethod, FindClass, envFindClass, hf, GetStaticMethodID,
        envGetStaticMethodID, hm, jniCheckException, exceptionCheck,
        exceptionOccurred, exceptionClear, hp, ScopedLocalRef.destruct, deleteLocalRef]
  · intro rt e e1 obj n s args ex h
    exact kind_isSome_of_throwable (CallMethod_error_isSome h)
  · intro rt e e1 cname n s args ex h
    exact kind_isSome_of_throwable (CallStaticMethod_error_isSome h)
  · intro e e1 cname csig args ex h
    exact kind_isSome_of_throwable (NewObject_error_isSome h)
  · intro t e e1 obj fname sg ex h
    exact kind_isSome_of_throwable (GetField_error_isSome h)
  · intro t e e1 cname fname sg ex h
    exact kind_isSome_of_throwable (GetStaticField_error_isSome h)

/-- Witness for C2: a nonexistent instance method and a nonexistent
static method fail with the lookup kind; concrete failures of all five
high-level operations are classified by the taxonomy. -/
theorem error_taxonomy_witness :
    (CallMethod .intT testEnv 1 "nope" "()I" [] =
        (Except.error ⟨"JNI exception occurred",
            some (.noSuchMethodError "nope" "()I")⟩,
          { testEnv with pending := none,
                         deleted := testEnv.deleted ++
                           [testEnv.world.getObjectClass 1] }) ∧
      (⟨"JNI exception occurred", some (.noSuchMethodError "nope" "()I")⟩ :
          JNIException).kind = some ErrKind.lookupFailed) ∧
    (CallStaticMethod .intT testEnv "com/example/Foo" "snope" "()I" [] =
        (Except.error ⟨"JNI exception occurred",
            some (.noSuchMethodError "snope" "()I")⟩,
          { testEnv with pending := none, deleted := testEnv.deleted ++ [10] }) ∧
      (⟨"JNI exception occurred", some (.noSuchMethodError "snope" "()I")⟩ :
          JNIException).kind = some ErrKind.lookupFailed) ∧
    (∃ k, (⟨"JNI exception occurred", some (.appThrown 99)⟩ : JNIException).kind =
      some k) ∧
    (∃ k, (⟨"JNI exception occurred", some (.noSuchMethodError "snope" "()I")⟩ :
      JNIException).kind = some k) ∧
    (∃ k, (⟨"JNI exception occurred", some (.noClassDefFound "com/example/Nope")⟩ :
      JNIException).kind = some k) ∧
    (∃ k, (⟨"JNI exception occurred",
      some (.noSuchFieldError "missing" "Ljava/lang/String;")⟩ :
      JNIException).kind = some k) ∧
    (∃ k, (⟨"JNI exception occurred",
      some (.noSuchFieldError "smissing" "Ljava/lang/String;")⟩ :
      JNIException).kind = some k) :=
  ⟨error_taxonomy_two_kinds.1 .intT testEnv 1 "nope" "()I" [] (by decide),
   error_taxonomy_two_kinds.2.1 .intT testEnv 10 "com/example/Foo" "snope" "()I" []
     rfl (by decide) (by decide),
   error_taxonomy_two_kinds.2.2.1 .voidT testEnv
     { testEnv with pending := none, deleted := [20],
                    calls := [PrimCall.callDirect .voidT 1 31] }
     1 "boom" "()V" [] ⟨"JNI exception occurred", some (.appThrown 99)⟩ (by rfl),
   error_taxonomy_two_kinds.2.2.2.1 .intT testEnv
     { testEnv with pending := none, deleted := [10] }
     "com/example/Foo" "snope" "()I" []
     ⟨"JNI exception occurred", some (.noSuchMethodError "snope" "()I")⟩ (by rfl),
   error_taxonomy_two_kinds.2.2.2.2.1 testEnv { testEnv with pending := none }
     "com/example/Nope" "()V" []
     ⟨"JNI exception occurred", some (.noClassDefFound "com/example/Nope")⟩ (by rfl),
   error_taxonomy_two_kinds.2.2.2.2.2.1 .strT testEnv
     { testEnv with pending := none, deleted := [20] } 5 "missing" none
     ⟨"JNI exception occurred",
       some (.noSuchFieldError "missing" "Ljava/lang/String;")⟩ (by rfl),
   error_taxonomy_two_kinds.2.2.2.2.2.2 .strT testEnv
     { testEnv with pending := none, deleted := [10] } "com/example/Foo" "smissing"
     none
     ⟨"JNI exception occurred",
       some (.noSuchFieldError "smissing" "Ljava/lang/String;")⟩ (by rfl)⟩
